/-
Verification of the `zipline/lines.py` topology orchestrator
(`SimulatedTrading`) against its natural-language specification.

The orchestrator itself (`SimulatedTrading.__init__`, `add_source`,
`add_transform`, `check_started`, `simulate`, `shutdown`,
`get_cumulative_performance`, `get_positions`) is embedded directly from
the source.  The collaborators that live outside the provided source tree
(the `AddressAllocator` endpoint pool and the client's performance
accounting object) are modelled from the spec, as marked on their
definitions.
-/
import Mathlib

namespace Zipline

/-- Endpoints (sockets) are opaque unique handles; we model them as `Nat`. -/
abbrev Endpoint := Nat

/-- Component identities (the value of `component.get_id`). -/
abbrev CompId := Nat

/-- Error taxonomy.  `alreadyStarted` models the `ZiplineException` raised by
`check_started` (lines 186-189; the spec calls it `AlreadyStartedError`;
note that `ZiplineException.__init__` at lines 230-232 is itself malformed,
so CPython would surface the raise as a `TypeError` — either way the call
fails).  `assertionError` models the `assert isinstance(...)` guards.
The allocator-side errors follow spec section 4.1. -/
inductive ZErr where
  | invalidRequest : ZErr
  | exhaustion : ZErr
  | notLeased : ZErr
  | assertionError : ZErr
  | alreadyStarted : ZErr
  | notStarted : ZErr
  | duplicateComponent : ZErr
  deriving DecidableEq

/-- Modelled from the spec: the `AddressAllocator` class is not in the
provided source tree; per section 4.1 it is a pool of unique endpoint
identifiers with `lease` and reclaim (`reaquire` in the code) operations. -/
structure Allocator where
  free : List Endpoint
  leased : List Endpoint
  deriving DecidableEq

/-- Modelled from the spec (section 4.1): `lease(n)` returns exactly `n`
previously-unleased endpoints, fails with `ExhaustionError` if fewer than
`n` remain, fails with `InvalidRequestError` if `n <= 0`. -/
def Allocator.lease (a : Allocator) (n : Nat) : Except ZErr (List Endpoint × Allocator) :=
  if n = 0 then Except.error ZErr.invalidRequest
  else if a.free.length < n then Except.error ZErr.exhaustion
  else Except.ok (a.free.take n, ⟨a.free.drop n, a.leased ++ a.free.take n⟩)

/-- Modelled from the spec (section 4.1): reclamation (`reaquire` in the
code) returns the given endpoints to the pool; fails with `NotLeasedError`
if any endpoint was not currently leased. -/
def Allocator.reaquire (a : Allocator) (es : List Endpoint) : Except ZErr Allocator :=
  if ∀ e ∈ es, e ∈ a.leased then
    Except.ok ⟨a.free ++ es, a.leased.filter (fun e => decide (e ∉ es))⟩
  else Except.error ZErr.notLeased

/-- The three component capabilities: `DataSource`, `BaseTransform`, and the
trade-simulation client (spec section 3's Source/Transform/Client). -/
inductive Capability where
  | source : Capability
  | transform : Capability
  | client : Capability
  deriving DecidableEq

/-- A pipeline component: its identity (`get_id`), its capability
(which `isinstance` class checks observe), and an opaque payload standing
for the rest of the Python object's state (distinct objects may share a
`get_id`). -/
structure Component where
  get_id : CompId
  cap : Capability
  payload : Nat
  deriving DecidableEq

/-- A registry mapping (`self.sources` / `self.transforms` / `self.clients`
are Python dicts keyed by `get_id`). -/
abbrev Registry := List (CompId × Component)

/-- Python dict lookup `m[k]` (as an `Option`). -/
def regGet (m : Registry) (k : CompId) : Option Component :=
  match m with
  | [] => none
  | p :: t => if p.1 = k then some p.2 else regGet t k

/-- Python dict assignment `m[k] = v`: overwrites an existing binding for
`k`, otherwise appends a new one. -/
def regSet (m : Registry) (k : CompId) (v : Component) : Registry :=
  if m.any (fun q => decide (q.1 = k)) then
    m.map (fun q => if q.1 = k then (k, v) else q)
  else m ++ [(k, v)]

/-- Modelled from the spec: the client component's internal accounting
collaborator (`trading_client.perf` with its `cumulative_performance`
record); the `TradeSimulationClient` class is not in the provided source
tree.  Spec section 4.2 only requires that it expose the cumulative
performance data and the recorded positions. -/
structure PerfData where
  positions : List (CompId × Int)
  cumulative : List (CompId × Int)
  deriving DecidableEq

/-- The only run-completion handler the module could install on
`sim.on_done`: the coordinator's own `shutdown` method. -/
inductive DoneHandler where
  | shutdownHandler : DoneHandler
  deriving DecidableEq

/-- The state of one `SimulatedTrading` instance (lines 112-228): the
leased socket list, the six named addresses (lines 128-135), the
controller's channel pair (lines 137-141), the three registries
(lines 145-157), the components handed to `sim.register_components`,
the `sim.on_done` slot (line 167), the `started` flag (line 168),
the run context (line 210), and the client's accounting data. -/
structure SimState where
  leased_sockets : List Endpoint
  sync_address : Endpoint
  data_address : Endpoint
  feed_address : Endpoint
  merge_address : Endpoint
  result_address : Endpoint
  order_address : Endpoint
  con : Endpoint × Endpoint
  clients : Registry
  sources : Registry
  transforms : Registry
  registered : List Component
  on_done : Option DoneHandler
  started : Bool
  sim_context : Option Unit
  trading_client_perf : PerfData
  callbacks_wired : Bool
  deriving DecidableEq

/-- The Python value returned by `shutdown` (lines 214-215): the method has
no `return` statement, so it returns `None` — not a handler. -/
def shutdown_return_value : Option DoneHandler := none

/-- `SimulatedTrading.shutdown` (lines 214-215):
`self.allocator.reaquire(*self.leased_sockets)`.  Note that it neither
clears `self.leased_sockets` nor records any terminated flag. -/
def SimulatedTrading.shutdown (s : SimState) (a : Allocator) :
    Except ZErr (SimState × Allocator) :=
  match a.reaquire s.leased_sockets with
  | Except.ok a2 => Except.ok (s, a2)
  | Except.error e => Except.error e

/-- `SimulatedTrading.__init__` (lines 112-171).  `allocate_sockets(8)`
(lines 127, 194-206) leases 8 sockets and extends `self.leased_sockets`;
the six named addresses are `sockets[0]`..`sockets[5]` (lines 128-135); the
`Controller` receives `sockets[6]` and `sockets[7]` (lines 137-141); the
three fixed components are registered into their dicts (lines 145-164);
then line 167, `self.sim.on_done = self.shutdown()`, CALLS `shutdown`
(reclaiming the sockets through the allocator) and stores its `None`
return value in `on_done`; finally `self.started = False` (line 168) and
the callbacks are wired (lines 170-171).  The `tcId`/`osId`/`tsId`
parameters are the identities the externally-constructed
`TradeSimulationClient` / `OrderDataSource` / `TransactionSimulator`
happen to carry, and `perf` is the client's accounting collaborator. -/
def SimulatedTrading.init (alloc : Allocator) (tcId osId tsId : CompId)
    (perf : PerfData) : Except ZErr (SimState × Allocator) :=
  match alloc.lease 8 with
  | Except.error e => Except.error e
  | Except.ok (sockets, a1) =>
    match sockets with
    | [s0, s1, s2, s3, s4, s5, s6, s7] =>
      let trading_client : Component := ⟨tcId, Capability.client, 0⟩
      let order_source : Component := ⟨osId, Capability.source, 0⟩
      let transaction_sim : Component := ⟨tsId, Capability.transform, 0⟩
      let st : SimState :=
        { leased_sockets := sockets
          sync_address := s0
          data_address := s1
          feed_address := s2
          merge_address := s3
          result_address := s4
          order_address := s5
          con := (s6, s7)
          clients := regSet [] tcId trading_client
          sources := regSet [] osId order_source
          transforms := regSet [] tsId transaction_sim
          registered := [trading_client, order_source, transaction_sim]
          on_done := none
          started := false
          sim_context := none
          trading_client_perf := perf
          callbacks_wired := true }
      match SimulatedTrading.shutdown st a1 with
      | Except.error e => Except.error e
      | Except.ok (st2, a2) =>
        Except.ok ({ st2 with on_done := shutdown_return_value }, a2)
    | _ => Except.error ZErr.exhaustion

/-- `SimulatedTrading.add_source` (lines 173-177): asserts the argument is
a `DataSource`, calls `check_started` (raising if `self.started`), then
registers the component with the runtime and writes it into
`self.sources`.  An error carries the instance state at raise time — the
raise happens before any mutation of `self`, so that state is the input
state unchanged. -/
def add_source (s : SimState) (c : Component) : Except (ZErr × SimState) SimState :=
  if c.cap ≠ Capability.source then Except.error (ZErr.assertionError, s)
  else if s.started then Except.error (ZErr.alreadyStarted, s)
  else Except.ok { s with
    registered := s.registered ++ [c]
    sources := regSet s.sources c.get_id c }

/-- `SimulatedTrading.add_transform` (lines 180-184): asserts the argument
is a `BaseTransform`, calls `check_started`, registers the component with
the runtime, and then — line 184 — writes it into `self.sources`
(not `self.transforms`). -/
def add_transform (s : SimState) (c : Component) : Except (ZErr × SimState) SimState :=
  if c.cap ≠ Capability.transform then Except.error (ZErr.assertionError, s)
  else if s.started then Except.error (ZErr.alreadyStarted, s)
  else Except.ok { s with
    registered := s.registered ++ [c]
    sources := regSet s.sources c.get_id c }

/-- `SimulatedTrading.simulate` (lines 208-212): sets `self.started = True`
and starts the runtime, storing the run context; there is no check of the
current lifecycle state.  `blocking` only controls the external
`sim_context.join()` call. -/
def SimulatedTrading.simulate (s : SimState) (_blocking : Bool) :
    Except (ZErr × SimState) SimState :=
  Except.ok { s with started := true, sim_context := some () }

/-- `SimulatedTrading.get_cumulative_performance` (lines 191-192): the body
is the bare expression statement
`self.trading_client.perf.cumulative_performance.to_dict()`; the computed
dictionary is discarded and, having no `return` statement, the method
returns `None`.  There is no started check. -/
def get_cumulative_performance (s : SimState) :
    Except ZErr (Option (List (CompId × Int))) :=
  let _computed := s.trading_client_perf.cumulative
  Except.ok none

/-- `SimulatedTrading.get_positions` (lines 221-228): returns
`self.trading_client.perf.cumulative_performance.get_positions()`.
There is no started check. -/
def get_positions (s : SimState) : Except ZErr (List (CompId × Int)) :=
  Except.ok s.trading_client_perf.positions

/-- Scenario: `shutdown()` called twice in succession on one instance. -/
def shutdownTwice (s : SimState) (a : Allocator) : Except ZErr (SimState × Allocator) :=
  match SimulatedTrading.shutdown s a with
  | Except.ok (s1, a1) => SimulatedTrading.shutdown s1 a1
  | Except.error e => Except.error e

/-- Scenario: construct an instance, then make the first caller-side
`shutdown()` call. -/
def shutdownOnInit (alloc : Allocator) (tcId osId tsId : CompId)
    (perf : PerfData) : Except ZErr (SimState × Allocator) :=
  match SimulatedTrading.init alloc tcId osId tsId perf with
  | Except.ok (s, a) => SimulatedTrading.shutdown s a
  | Except.error e => Except.error e

/-- Observe `sources[k]` of a registration call's result (`none` when the
call raised). -/
def sourcesAt (r : Except (ZErr × SimState) SimState) (k : CompId) :
    Option (Option Component) :=
  match r with
  | Except.ok s => some (regGet s.sources k)
  | Except.error _ => none

/-- Observe the whole `transforms` dict of a registration call's result. -/
def transformsOf (r : Except (ZErr × SimState) SimState) : Option Registry :=
  match r with
  | Except.ok s => some s.transforms
  | Except.error _ => none

/-- Observe the allocator after a successful construction. -/
def allocAfter (r : Except ZErr (SimState × Allocator)) : Option Allocator :=
  match r with
  | Except.ok (_, a) => some a
  | Except.error _ => none

/-- Observe the instance state after a successful construction. -/
def stateAfter (r : Except ZErr (SimState × Allocator)) : Option SimState :=
  match r with
  | Except.ok (s, _) => some s
  | Except.error _ => none

/-- A fresh allocator whose pool holds exactly 8 endpoints. -/
def demoAlloc : Allocator := ⟨[0, 1, 2, 3, 4, 5, 6, 7], []⟩

/-- An allocator currently leasing endpoints 0-7 (none free). -/
def demoLeasedAlloc : Allocator := ⟨[], [0, 1, 2, 3, 4, 5, 6, 7]⟩

/-- Sample accounting data for the client collaborator. -/
def demoPerf : PerfData := { positions := [(1, 10)], cumulative := [(2, 20)] }

/-- A concrete freshly-built topology instance in the `Building` state
(`started = false`), holding sockets 0-7. -/
def demoState : SimState :=
  { leased_sockets := [0, 1, 2, 3, 4, 5, 6, 7]
    sync_address := 0
    data_address := 1
    feed_address := 2
    merge_address := 3
    result_address := 4
    order_address := 5
    con := (6, 7)
    clients := [(100, ⟨100, Capability.client, 0⟩)]
    sources := [(101, ⟨101, Capability.source, 0⟩)]
    transforms := [(102, ⟨102, Capability.transform, 0⟩)]
    registered := [⟨100, Capability.client, 0⟩, ⟨101, Capability.source, 0⟩,
      ⟨102, Capability.transform, 0⟩]
    on_done := none
    started := false
    sim_context := none
    trading_client_perf := demoPerf
    callbacks_wired := true }

/-- The state expected from `SimulatedTrading.init demoAlloc 100 101 102
demoPerf`. -/
def demoInitState : SimState := demoState

/-- `demoState` after `simulate` has run. -/
def demoStarted : SimState := { demoState with started := true, sim_context := some () }

/-- Two distinct source components sharing identity 5. -/
def compA : Component := ⟨5, Capability.source, 0⟩

/-- Second component with the same identity as `compA`. -/
def compB : Component := ⟨5, Capability.source, 1⟩

/-- A further fresh source component used after `run`. -/
def compC : Component := ⟨11, Capability.source, 0⟩

/-- A fresh transform component. -/
def tdemo : Component := ⟨9, Capability.transform, 0⟩

/-- Another fresh transform component used after `run`. -/
def tdemo2 : Component := ⟨12, Capability.transform, 0⟩

/-- `demoState` with `compA` already registered under identity 5. -/
def dupState : SimState := { demoState with sources := [(5, compA)] }

/-- A list of length at least 8 starts with 8 explicit elements. -/
theorem eight_le_length_destruct {α : Type} (l : List α) (h : 8 ≤ l.length) :
    ∃ x0 x1 x2 x3 x4 x5 x6 x7 t,
      l = x0 :: x1 :: x2 :: x3 :: x4 :: x5 :: x6 :: x7 :: t := by
  rcases l with _ | ⟨x0, _ | ⟨x1, _ | ⟨x2, _ | ⟨x3, _ | ⟨x4, _ | ⟨x5, _ | ⟨x6, _ | ⟨x7, t⟩⟩⟩⟩⟩⟩⟩⟩
  · simp only [List.length_nil] at h; omega
  · simp only [List.length_cons, List.length_nil] at h; omega
  · simp only [List.length_cons, List.length_nil] at h; omega
  · simp only [List.length_cons, List.length_nil] at h; omega
  · simp only [List.length_cons, List.length_nil] at h; omega
  · simp only [List.length_cons, List.length_nil] at h; omega
  · simp only [List.length_cons, List.length_nil] at h; omega
  · simp only [List.length_cons, List.length_nil] at h; omega
  · exact ⟨x0, x1, x2, x3, x4, x5, x6, x7, t, rfl⟩

/-- Leasing 8 endpoints from a pool holding at least 8 takes the first 8. -/
theorem lease_eight (x0 x1 x2 x3 x4 x5 x6 x7 : Endpoint) (t leased : List Endpoint) :
    Allocator.lease ⟨x0 :: x1 :: x2 :: x3 :: x4 :: x5 :: x6 :: x7 :: t, leased⟩ 8 =
      Except.ok ([x0, x1, x2, x3, x4, x5, x6, x7],
        ⟨t, leased ++ [x0, x1, x2, x3, x4, x5, x6, x7]⟩) := by
  unfold Allocator.lease
  rw [if_neg (by decide), if_neg (by
    show ¬((x0 :: x1 :: x2 :: x3 :: x4 :: x5 :: x6 :: x7 :: t).length < 8)
    simp only [List.length_cons]
    omega)]
  rfl

/-- Full computation of `SimulatedTrading.init` on an allocator whose pool
holds at least 8 endpoints. -/
theorem init_eight (x0 x1 x2 x3 x4 x5 x6 x7 : Endpoint) (t leased : List Endpoint)
    (tcId osId tsId : CompId) (perf : PerfData) :
    SimulatedTrading.init ⟨x0 :: x1 :: x2 :: x3 :: x4 :: x5 :: x6 :: x7 :: t, leased⟩
        tcId osId tsId perf =
      Except.ok
        ({ leased_sockets := [x0, x1, x2, x3, x4, x5, x6, x7]
           sync_address := x0
           data_address := x1
           feed_address := x2
           merge_address := x3
           result_address := x4
           order_address := x5
           con := (x6, x7)
           clients := [(tcId, ⟨tcId, Capability.client, 0⟩)]
           sources := [(osId, ⟨osId, Capability.source, 0⟩)]
           transforms := [(tsId, ⟨tsId, Capability.transform, 0⟩)]
           registered := [⟨tcId, Capability.client, 0⟩, ⟨osId, Capability.source, 0⟩,
             ⟨tsId, Capability.transform, 0⟩]
           on_done := none
           started := false
           sim_context := none
           trading_client_perf := perf
           callbacks_wired := true },
         ⟨t ++ [x0, x1, x2, x3, x4, x5, x6, x7],
           (leased ++ [x0, x1, x2, x3, x4, x5, x6, x7]).filter
             (fun e => decide (e ∉ [x0, x1, x2, x3, x4, x5, x6, x7]))⟩) := by
  have hmem : ∀ e ∈ [x0, x1, x2, x3, x4, x5, x6, x7],
      e ∈ leased ++ [x0, x1, x2, x3, x4, x5, x6, x7] := by
    intro e he
    exact List.mem_append.mpr (Or.inr he)
  unfold SimulatedTrading.init
  rw [lease_eight]
  dsimp only
  unfold SimulatedTrading.shutdown Allocator.reaquire
  rw [if_pos hmem]
  rfl

/-- Construction fails with the allocator's exhaustion error when fewer
than 8 endpoints remain in the pool. -/
theorem init_short (alloc : Allocator) (tcId osId tsId : CompId) (perf : PerfData)
    (h : alloc.free.length < 8) :
    SimulatedTrading.init alloc tcId osId tsId perf = Except.error ZErr.exhaustion := by
  unfold SimulatedTrading.init Allocator.lease
  rw [if_neg (by decide), if_pos h]

/-- Dict lookup after an in-place overwrite finds the new value. -/
theorem regGet_map_set (m : Registry) (k : CompId) (v : Component)
    (h : m.any (fun q => decide (q.1 = k)) = true) :
    regGet (m.map (fun q => if q.1 = k then (k, v) else q)) k = some v := by
  induction m with
  | nil => simp at h
  | cons p t ih =>
    by_cases hp : p.1 = k
    · simp [regGet, hp]
    · have ht : t.any (fun q => decide (q.1 = k)) = true := by
        simpa [List.any_cons, hp] using h
      simp only [List.map_cons, regGet, if_neg hp]
      exact ih ht

/-- Dict lookup after appending a fresh binding finds the new value. -/
theorem regGet_append_set (m : Registry) (k : CompId) (v : Component)
    (h : m.any (fun q => decide (q.1 = k)) = false) :
    regGet (m ++ [(k, v)]) k = some v := by
  induction m with
  | nil => simp [regGet]
  | cons p t ih =>
    simp only [List.any_cons, Bool.or_eq_false_iff, decide_eq_false_iff_not] at h
    obtain ⟨h1, h2⟩ := h
    simp only [List.cons_append, regGet, if_neg h1]
    exact ih h2

/-- Python dict semantics: after `m[k] = v`, `m[k]` is `v`. -/
theorem regGet_regSet_self (m : Registry) (k : CompId) (v : Component) :
    regGet (regSet m k v) k = some v := by
  unfold regSet
  by_cases h : m.any (fun q => decide (q.1 = k)) = true
  · rw [if_pos h]
    exact regGet_map_set m k v h
  · rw [if_neg h]
    refine regGet_append_set m k v ?_
    revert h
    cases m.any (fun q => decide (q.1 = k)) <;> simp

/-- C1: the claim says repeated `shutdown()` calls reclaim the leased
endpoints exactly once, later calls being no-ops.  In the code `shutdown`
never clears `self.leased_sockets`, so every call re-submits the full list
to `allocator.reaquire`; against the spec's allocator contract the second
call in succession is a failing reclamation attempt (`NotLeasedError`),
not a no-op — and because `__init__` (line 167) already invoked
`shutdown`, even the first caller-side `shutdown` after construction
fails the same way. -/
theorem shutdown_not_idempotent :
    shutdownTwice demoState demoLeasedAlloc = Except.error ZErr.notLeased ∧
    shutdownOnInit demoAlloc 100 101 102 demoPerf = Except.error ZErr.notLeased :=
  ⟨rfl, rfl⟩

/-- C2: the claim says that when construction returns, all 8 endpoints
leased during construction are still held and none has been reclaimed.
In the code, line 167 (`self.sim.on_done = self.shutdown()`) calls
`shutdown` during `__init__`, so at the moment construction returns the
allocator's free pool again contains all 8 endpoints (here the pool
`demoAlloc` is restored to its full pre-construction contents), even
though the instance's `leased_sockets` list still names them. -/
theorem construction_reclaims_endpoints :
    allocAfter (SimulatedTrading.init demoAlloc 100 101 102 demoPerf) =
      some ⟨[0, 1, 2, 3, 4, 5, 6, 7], []⟩ ∧
    (stateAfter (SimulatedTrading.init demoAlloc 100 101 102 demoPerf)).map
        SimState.leased_sockets = some [0, 1, 2, 3, 4, 5, 6, 7] :=
  ⟨rfl, rfl⟩

/-- C3: after `run` (`simulate`) has been called, `add_source` and
`add_transform` both fail with the already-started error, and the state
carried at the raise (the registries included) is exactly the pre-call
state. -/
theorem add_after_run_fails (s s1 : SimState) (b : Bool) (c t : Component)
    (hrun : SimulatedTrading.simulate s b = Except.ok s1)
    (hc : c.cap = Capability.source) (ht : t.cap = Capability.transform) :
    add_source s1 c = Except.error (ZErr.alreadyStarted, s1) ∧
    add_transform s1 t = Except.error (ZErr.alreadyStarted, s1) := by
  simp only [SimulatedTrading.simulate, Except.ok.injEq] at hrun
  subst hrun
  constructor
  · simp [add_source, hc]
  · simp [add_transform, ht]

/-- Witness for C3 at a concrete started instance. -/
theorem add_after_run_fails_witness :
    SimulatedTrading.simulate demoState false = Except.ok demoStarted ∧
    compC.cap = Capability.source ∧ tdemo2.cap = Capability.transform ∧
    (add_source demoStarted compC = Except.error (ZErr.alreadyStarted, demoStarted) ∧
     add_transform demoStarted tdemo2 = Except.error (ZErr.alreadyStarted, demoStarted)) :=
  ⟨rfl, rfl, rfl, add_after_run_fails demoState demoStarted false compC tdemo2 rfl rfl rfl⟩

/-- C4 counterexample: in the Building state `dupState`, identity 5 is
already bound to `compA`, yet registering `compB` (same identity) does not
fail with any duplicate-component error — the call succeeds and the
sources dict now maps 5 to `compB`, not to the first-registered `compA`. -/
theorem add_source_duplicate_cex :
    (add_source dupState compB).isOk = true ∧
    sourcesAt (add_source dupState compB) 5 = some (some compB) ∧
    compB ≠ compA :=
  ⟨rfl, rfl, by decide⟩

/-- C4 amended: in the Building state, registering a second component whose
identity equals that of an already-registered component does not fail; the
code performs no duplicate check, the dict assignment succeeds, and the
Registry afterwards maps that identity to the second (latest) component,
overwriting the first. -/
theorem add_source_duplicate_overwrites (s : SimState) (c1 c2 : Component)
    (hb : s.started = false) (hc : c2.cap = Capability.source)
    (_hdup : regGet s.sources c2.get_id = some c1) :
    ∃ s2, add_source s c2 = Except.ok s2 ∧
      regGet s2.sources c2.get_id = some c2 := by
  refine ⟨{ s with
      registered := s.registered ++ [c2]
      sources := regSet s.sources c2.get_id c2 }, ?_, ?_⟩
  · simp [add_source, hc, hb]
  · exact regGet_regSet_self s.sources c2.get_id c2

/-- Witness for the amended C4 at a concrete duplicate registration. -/
theorem add_source_duplicate_overwrites_witness :
    (dupState.started = false ∧ compB.cap = Capability.source ∧
      regGet dupState.sources compB.get_id = some compA) ∧
    (∃ s2, add_source dupState compB = Except.ok s2 ∧
      regGet s2.sources compB.get_id = some compB) :=
  ⟨⟨rfl, rfl, rfl⟩, add_source_duplicate_overwrites dupState compA compB rfl rfl rfl⟩

/-- C5: the claim says a successful `addTransform(t)` records `t` in the
transforms mapping and leaves sources unchanged.  Line 184 of the code
does the opposite: the transform `tdemo` lands in `self.sources` and
`self.transforms` is untouched. -/
theorem add_transform_stores_in_sources :
    sourcesAt (add_transform demoState tdemo) tdemo.get_id = some (some tdemo) ∧
    transformsOf (add_transform demoState tdemo) = some demoState.transforms :=
  ⟨rfl, rfl⟩

/-- C6 counterexample: on the concrete started instance `demoStarted`
(so the lifecycle state is no longer Building), a further call to `run`
(`simulate`) does not fail with any already-started error — it returns
normally, because `simulate` performs no lifecycle check. -/
theorem simulate_twice_cex :
    demoStarted.started = true ∧
    SimulatedTrading.simulate demoStarted true = Except.ok demoStarted :=
  ⟨rfl, rfl⟩

/-- C6 amended: the first call to `run` (`simulate`) does transition the
instance to started (Building to Running), but `simulate` performs no
check of the current state, so every subsequent call also returns
normally (setting `started` again and restarting the runtime) instead of
failing with `AlreadyStartedError`. -/
theorem simulate_sets_started (s : SimState) (b b2 : Bool) :
    ∃ s1 s2, SimulatedTrading.simulate s b = Except.ok s1 ∧ s1.started = true ∧
      SimulatedTrading.simulate s1 b2 = Except.ok s2 ∧ s2.started = true :=
  ⟨_, _, rfl, rfl, rfl, rfl⟩

/-- C7: construction from any allocator whose pool holds at least 8
distinct endpoints succeeds, leases exactly 8 endpoints, binds the six
named roles to pairwise-distinct leased endpoints, and hands the two
remaining leased endpoints to the Controller as its channel pair: the
six role bindings followed by the controller pair enumerate the leased
set without repetition. -/
theorem role_endpoints_distinct (alloc : Allocator) (tcId osId tsId : CompId)
    (perf : PerfData) (hnd : alloc.free.Nodup) (hlen : 8 ≤ alloc.free.length) :
    ∃ s a2, SimulatedTrading.init alloc tcId osId tsId perf = Except.ok (s, a2) ∧
      s.leased_sockets.length = 8 ∧ s.leased_sockets.Nodup ∧
      [s.sync_address, s.data_address, s.feed_address, s.merge_address,
        s.result_address, s.order_address, s.con.1, s.con.2] = s.leased_sockets := by
  obtain ⟨free, leased⟩ := alloc
  obtain ⟨x0, x1, x2, x3, x4, x5, x6, x7, t, rfl⟩ := eight_le_length_destruct free hlen
  refine ⟨_, _, init_eight x0 x1 x2 x3 x4 x5 x6 x7 t leased tcId osId tsId perf,
    rfl, ?_, rfl⟩
  have hsub : List.Sublist [x0, x1, x2, x3, x4, x5, x6, x7]
      (x0 :: x1 :: x2 :: x3 :: x4 :: x5 :: x6 :: x7 :: t) :=
    List.sublist_append_left [x0, x1, x2, x3, x4, x5, x6, x7] t
  exact List.Nodup.sublist hsub hnd

/-- Witness for C7 on the concrete 8-endpoint allocator. -/
theorem role_endpoints_distinct_witness :
    (demoAlloc.free.Nodup ∧ 8 ≤ demoAlloc.free.length) ∧
    (∃ s a2, SimulatedTrading.init demoAlloc 100 101 102 demoPerf = Except.ok (s, a2) ∧
      s.leased_sockets.length = 8 ∧ s.leased_sockets.Nodup ∧
      [s.sync_address, s.data_address, s.feed_address, s.merge_address,
        s.result_address, s.order_address, s.con.1, s.con.2] = s.leased_sockets) :=
  ⟨⟨by decide, by decide⟩,
    role_endpoints_distinct demoAlloc 100 101 102 demoPerf (by decide) (by decide)⟩

/-- C8 counterexample: on the concrete never-started instance `demoState`,
both accessors succeed — `get_positions` returns the client's recorded
positions and `get_cumulative_performance` returns `None` — instead of
failing with `NotStartedError`. -/
theorem accessors_before_run_cex :
    demoState.started = false ∧
    get_positions demoState = Except.ok [(1, 10)] ∧
    get_cumulative_performance demoState = Except.ok none :=
  ⟨rfl, rfl, rfl⟩

/-- C8 amended: neither accessor performs a lifecycle check; called before
`run` they delegate unconditionally to the client's accounting
collaborator — `get_positions` returns its recorded positions and
`get_cumulative_performance` returns `None` — and never fail with
`NotStartedError`. -/
theorem accessors_no_started_check (s : SimState) (_h : s.started = false) :
    get_positions s = Except.ok s.trading_client_perf.positions ∧
    get_cumulative_performance s = Except.ok none ∧
    get_positions s ≠ Except.error ZErr.notStarted ∧
    get_cumulative_performance s ≠ Except.error ZErr.notStarted :=
  ⟨rfl, rfl, fun h => Except.noConfusion h, fun h => Except.noConfusion h⟩

/-- Witness for the amended C8 on the concrete never-started instance. -/
theorem accessors_no_started_check_witness :
    demoState.started = false ∧
    (get_positions demoState = Except.ok demoState.trading_client_perf.positions ∧
      get_cumulative_performance demoState = Except.ok none ∧
      get_positions demoState ≠ Except.error ZErr.notStarted ∧
      get_cumulative_performance demoState ≠ Except.error ZErr.notStarted) :=
  ⟨rfl, accessors_no_started_check demoState rfl⟩

/-- C9: whenever construction succeeds, the run-completion slot
`sim.on_done` of the returned instance is `None`: line 167 assigns the
return value of the immediate `shutdown()` call (which returns `None`),
not the `shutdown` method itself, so the run-completion signal has no
shutdown handler to invoke. -/
theorem on_done_is_none (alloc : Allocator) (tcId osId tsId : CompId)
    (perf : PerfData) (s : SimState) (a2 : Allocator)
    (h : SimulatedTrading.init alloc tcId osId tsId perf = Except.ok (s, a2)) :
    s.on_done = none := by
  by_cases hlen : 8 ≤ alloc.free.length
  · obtain ⟨free, leased⟩ := alloc
    obtain ⟨x0, x1, x2, x3, x4, x5, x6, x7, t, rfl⟩ := eight_le_length_destruct free hlen
    rw [init_eight] at h
    simp only [Except.ok.injEq, Prod.mk.injEq] at h
    obtain ⟨h1, h2⟩ := h
    subst h1
    rfl
  · rw [init_short alloc tcId osId tsId perf (by omega)] at h
    exact Except.noConfusion h

/-- Witness for C9 on the concrete 8-endpoint allocator. -/
theorem on_done_is_none_witness :
    SimulatedTrading.init demoAlloc 100 101 102 demoPerf =
      Except.ok (demoInitState, demoAlloc) ∧
    demoInitState.on_done = none :=
  ⟨rfl, on_done_is_none demoAlloc 100 101 102 demoPerf demoInitState demoAlloc rfl⟩

/-- C10: in every state, `get_cumulative_performance` returns `None`: the
body evaluates the cumulative-performance dictionary conversion but has no
return statement, so the computed dictionary is never returned. -/
theorem get_cumulative_performance_returns_none (s : SimState) :
    get_cumulative_performance s = Except.ok none := rfl

/-- Witness for C10 on the concrete instance. -/
theorem get_cumulative_performance_returns_none_witness :
    get_cumulative_performance demoState = Except.ok none :=
  get_cumulative_performance_returns_none demoState

/-- Witness-style instantiation of C6's amended theorem on the concrete
instance. -/
theorem simulate_sets_started_witness :
    ∃ s1 s2, SimulatedTrading.simulate demoState true = Except.ok s1 ∧
      s1.started = true ∧
      SimulatedTrading.simulate s1 false = Except.ok s2 ∧ s2.started = true :=
  simulate_sets_started demoState true false

end Zipline
